import Mathlib

/-!
Shallow embedding of `src/force_sensor.c` (MLX90393 force-sensor driver for
the Raspberry Pi Pico) and proofs about its measurement pipeline.

Float arithmetic in the C source is modelled exactly over `ℚ`; machine
integers are modelled as `Nat`/`Int` with explicit reduction modulo powers
of two where the C performs a narrowing conversion.  The I2C transport is
modelled as an oracle (`Option` of the response bytes): `none` is a bus-level
transport failure, `some` carries the raw bytes the sensor answered with.
-/

namespace ForceSensor

/-- The eight gain settings, `mlx90393_gain_t` in the source (enum values 0..7,
ordered from highest to lowest amplification). -/
inductive Gain
  | gain5x
  | gain4x
  | gain3x
  | gain2_5x
  | gain2x
  | gain1_67x
  | gain1_33x
  | gain1x
deriving DecidableEq, Fintype

/-- The numeric enum value of a gain setting, used as a row index into the
LSB lookup table. -/
def Gain.toIdx : Gain → Nat
  | .gain5x => 0
  | .gain4x => 1
  | .gain3x => 2
  | .gain2_5x => 3
  | .gain2x => 4
  | .gain1_67x => 5
  | .gain1_33x => 6
  | .gain1x => 7

/-- The four resolution settings, `mlx90393_resolution_t` in the source
(enum values 0..3 for 16/17/18/19-bit). -/
inductive Res
  | res16
  | res17
  | res18
  | res19
deriving DecidableEq, Fintype

/-- The numeric enum value of a resolution setting, used as a column index
into the LSB lookup table. -/
def Res.toIdx : Res → Nat
  | .res16 => 0
  | .res17 => 1
  | .res18 => 2
  | .res19 => 3

/-- `Z_OFFSET_MT`: additive offset keeping Z-axis values positive (mT). -/
def Z_OFFSET_MT : ℚ := 20.0

/-- `CALIBRATION_SLOPE` from the source. -/
def CALIBRATION_SLOPE : ℚ := 51.94029384743018

/-- `CALIBRATION_INTERCEPT` from the source. -/
def CALIBRATION_INTERCEPT : ℚ := -692.9925307532482

/-- `FILTER_VAL`: the exponential-smoothing coefficient from the source. -/
def FILTER_VAL : ℚ := 0.4

/-- The LSB lookup table `mlx90393_lsb_lookup[2][8][4][2]`, laid out exactly
as the C initializer: `[HALLCONF half][GAIN][RES][XY/Z]`, in µT per count. -/
def mlx90393_lsb_lookup : List (List (List (List ℚ))) :=
  [ -- HALLCONF = 0xC (default)
    [ [[0.751, 1.210], [1.502, 2.420], [3.004, 4.840], [6.009, 9.680]],
      [[0.601, 0.968], [1.202, 1.936], [2.403, 3.872], [4.840, 7.744]],
      [[0.451, 0.726], [0.901, 1.452], [1.803, 2.904], [3.605, 5.808]],
      [[0.376, 0.605], [0.751, 1.210], [1.502, 2.420], [3.004, 4.840]],
      [[0.300, 0.484], [0.601, 0.968], [1.202, 1.936], [2.403, 3.872]],
      [[0.250, 0.403], [0.501, 0.807], [1.001, 1.613], [2.003, 3.227]],
      [[0.200, 0.323], [0.401, 0.645], [0.801, 1.291], [1.602, 2.581]],
      [[0.150, 0.242], [0.300, 0.484], [0.601, 0.968], [1.202, 1.936]] ],
    -- HALLCONF = 0x0
    [ [[0.787, 1.267], [1.573, 2.534], [3.146, 5.068], [6.292, 10.137]],
      [[0.629, 1.014], [1.258, 2.027], [2.517, 4.055], [5.034, 8.109]],
      [[0.472, 0.760], [0.944, 1.521], [1.888, 3.041], [3.775, 6.082]],
      [[0.393, 0.634], [0.787, 1.267], [1.573, 2.534], [3.146, 5.068]],
      [[0.315, 0.507], [0.629, 1.014], [1.258, 2.027], [2.517, 4.055]],
      [[0.262, 0.422], [0.524, 0.845], [1.049, 1.689], [2.097, 3.379]],
      [[0.210, 0.338], [0.419, 0.676], [0.839, 1.352], [1.678, 2.703]],
      [[0.157, 0.253], [0.315, 0.507], [0.629, 1.014], [1.258, 2.027]] ] ]

/-- Indexed read of the LSB lookup table: `mlx90393_lsb_lookup[hc][gain][res][axis]`
(axis 0 = XY, axis 1 = Z). -/
def lsb (hc : Nat) (g : Gain) (r : Res) (axis : Nat) : ℚ :=
  (((mlx90393_lsb_lookup.getD hc []).getD g.toIdx []).getD r.toIdx []).getD axis 0

/-- The Z-axis scale factor actually read by `mlx_read_measurement`:
`mlx90393_lsb_lookup[0][mlx_gain][mlx_res_z][1]` (first index the constant 0,
the HALLCONF = 0xC half). -/
def lsbZ (g : Gain) (r : Res) : ℚ := lsb 0 g r 1

/-- Two's-complement wraparound of an integer into the `int16_t` range
`[-32768, 32767]`, as performed by a narrowing assignment to `int16_t`. -/
def wrap16 (z : ℤ) : ℤ := (z + 32768) % 65536 - 32768

/-- `(data[5] << 8) | data[6]`: the 16-bit big-endian word built from the two
raw Z-axis bytes (each byte reduced mod 256 as a `uint8_t`). -/
def byteWord (hi lo : Nat) : Nat := (hi % 256) * 256 + lo % 256

/-- `int16_t zi = (data[5] << 8) | data[6]`: the big-endian word read as a
signed 16-bit two's-complement value. -/
def ziRaw (hi lo : Nat) : ℤ := wrap16 (byteWord hi lo)

/-- The resolution-dependent offset correction of `mlx_read_measurement`:
`zi -= 0x8000` at 18-bit, `zi -= 0x4000` at 19-bit, no change at 16/17-bit.
The subtraction narrows back into `int16_t`, hence the `wrap16`. -/
def ziCor (r : Res) (zi : ℤ) : ℤ :=
  match r with
  | .res18 => wrap16 (zi - 0x8000)
  | .res19 => wrap16 (zi - 0x4000)
  | _ => zi

/-- `float z_uT = (float)zi * mlx90393_lsb_lookup[0][mlx_gain][mlx_res_z][1]`. -/
def z_uT (g : Gain) (r : Res) (hi lo : Nat) : ℚ :=
  (ziCor r (ziRaw hi lo) : ℚ) * lsbZ g r

/-- `float z_mT = (z_uT / 1000.0f) + Z_OFFSET_MT`. -/
def z_mT (g : Gain) (r : Res) (hi lo : Nat) : ℚ :=
  z_uT g r hi lo / 1000 + Z_OFFSET_MT

/-- `*z = (z_mT < 0.0f) ? 0.0f : z_mT`: the decoded PhysicalField, clamped to
be non-negative.  This is the success-path value of `mlx_read_measurement`. -/
def decodeZ (g : Gain) (r : Res) (hi lo : Nat) : ℚ :=
  if z_mT g r hi lo < 0 then 0 else z_mT g r hi lo

/-! ### Command exchanges and status decoding

Each `mlx_*` command function is a function of the transport outcome of its
single `mlx_transceive` call: `none` models a failed bus exchange (the C
function returns `false` before looking at any byte), `some` carries the
response bytes. -/

/-- `status >> 2`: the status code extracted from a status byte (`uint8_t`,
hence the reduction mod 256). -/
def statusCode (s : Nat) : Nat := (s % 256) >>> 2

/-- `mlx_exit_mode`: issue EXIT_MODE, succeed iff the transport succeeded and
`(status >> 2) == 0x00`. -/
def mlx_exit_mode (resp : Option Nat) : Bool :=
  match resp with
  | none => false
  | some s => statusCode s == 0x00

/-- `mlx_reset`: issue RESET, succeed iff the transport succeeded and
`(status >> 2) == 0x01` (the C sleeps 5 ms before the check; timing is not
modelled). -/
def mlx_reset (resp : Option Nat) : Bool :=
  match resp with
  | none => false
  | some s => statusCode s == 0x01

/-- `mlx_start_measurement`: issue START_MEASUREMENT on all axes, succeed iff
the transport succeeded and the status code is `0x00` or `0x08`. -/
def mlx_start_measurement (resp : Option Nat) : Bool :=
  match resp with
  | none => false
  | some s => statusCode s == 0x00 || statusCode s == 0x08

/-- `mlx_read_measurement`: issue READ_MEASUREMENT; on transport failure or a
status code other than `0x00` return failure (`none`, the data bytes are
discarded); otherwise decode bytes 5 and 6 (Z axis, big-endian) into the
PhysicalField.  `resp` carries the 7 response bytes `data[0] .. data[6]`
(status byte first). -/
def mlx_read_measurement (g : Gain) (r : Res) (resp : Option (List Nat)) :
    Option ℚ :=
  match resp with
  | none => none
  | some data =>
      if statusCode (data.getD 0 0) == 0x00 then
        some (decodeZ g r (data.getD 5 0) (data.getD 6 0))
      else
        none

/-! ### Smoothing, force calculation and driver state machine -/

/-- `smooth(data, filter_val, smoothed_val)` from the source. -/
def smooth (data filter_val smoothed_val : ℚ) : ℚ :=
  data * (1 - filter_val) + smoothed_val * filter_val

/-- `calculate_force`: linear calibration, clamped to non-negative. -/
def calculate_force (z_axis_mT : ℚ) : ℚ :=
  let force := CALIBRATION_SLOPE * z_axis_mT + CALIBRATION_INTERCEPT
  if force < 0 then 0 else force

/-- FilterState: the globals `smoothed_z` and `first_mag_reading` of the
source (`first_mag_reading = true` means the filter is not yet seeded). -/
structure FilterState where
  smoothed_z : ℚ
  first_mag_reading : Bool
deriving DecidableEq

/-- The per-accepted-reading filter update performed inline in `main`:
the first accepted reading seeds the filter and is printed unchanged, later
readings are smoothed with `FILTER_VAL`-style coefficient `c`.  Returns the
new FilterState and the printed value. -/
def smootherUpdate (fs : FilterState) (raw c : ℚ) : FilterState × ℚ :=
  if fs.first_mag_reading then
    ({ smoothed_z := raw, first_mag_reading := false }, raw)
  else
    let v := smooth raw c fs.smoothed_z
    ({ smoothed_z := v, first_mag_reading := false }, v)

/-- One polling cycle's transport oracle: the response of each possible bus
exchange (`none` = transport failure at that exchange). -/
structure Env where
  exitResp : Option Nat
  resetResp : Option Nat
  startResp : Option Nat
  readResp : Option (List Nat)
deriving DecidableEq

/-- `mlx_init`: EXIT_MODE then RESET; any failure aborts with `false` and the
`mlx_initialized` flag is never set.  Returns the value of `mlx_initialized`
after the call. -/
def mlx_init (env : Env) : Bool :=
  if mlx_exit_mode env.exitResp then
    if mlx_reset env.resetResp then true else false
  else
    false

/-- DriverState: the `mlx_initialized` flag together with the FilterState,
exactly the mutable globals the polling loop touches. -/
structure DriverState where
  initDone : Bool
  filter : FilterState
deriving DecidableEq

/-- The driver state right after `main` calls `mlx_init`: the flag holds the
result of `mlx_init`, the filter is still unseeded (`smoothed_z = 0.0f`,
`first_mag_reading = true`). -/
def afterInit (env : Env) : DriverState :=
  { initDone := mlx_init env,
    filter := { smoothed_z := 0, first_mag_reading := true } }

/-- `mlx_read_data`: START_MEASUREMENT, then (only if it succeeded)
READ_MEASUREMENT.  The second component counts the `mlx_transceive`
invocations the call performed. -/
def mlx_read_data (g : Gain) (r : Res) (env : Env) : Option ℚ × Nat :=
  if mlx_start_measurement env.startResp then
    (mlx_read_measurement g r env.readResp, 2)
  else
    (none, 1)

/-- One iteration of the polling loop in `main` (the sensor-reading part):
if the driver is not marked as ready the Transceiver is not invoked at all;
otherwise `mlx_read_data` runs and an accepted reading updates the filter.
Returns the new DriverState, the printed reading (`none` = the ERROR /
not-ready branch) and the number of `mlx_transceive` invocations. -/
def pollCycle (g : Gain) (r : Res) (st : DriverState) (env : Env) :
    DriverState × Option ℚ × Nat :=
  if st.initDone then
    match mlx_read_data g r env with
    | (some z, n) =>
        let (fs, v) := smootherUpdate st.filter z FILTER_VAL
        ({ st with filter := fs }, some v, n)
    | (none, n) => (st, none, n)
  else
    (st, none, 0)

/-! ### Spec-side definitions

These follow the wording of spec sentences (not the C source) and exist only
to be compared with the source embedding above. -/

/-- Modelled from the claim wording of C1: the offset correction performed by
exact integer subtraction on the signed reassembly (no 16-bit wraparound). -/
def ziCor_litspec (r : Res) (zi : ℤ) : ℤ :=
  match r with
  | .res18 => zi - 0x8000
  | .res19 => zi - 0x4000
  | _ => zi

/-- The decode pipeline as claim C1 literally states it: signed reassembly,
exact offset subtraction, scale, /1000, + Z-offset, clamp at 0. -/
def decodeZ_litspec (g : Gain) (r : Res) (hi lo : Nat) : ℚ :=
  if (ziCor_litspec r (ziRaw hi lo) : ℚ) * lsbZ g r / 1000 + Z_OFFSET_MT < 0 then 0
  else (ziCor_litspec r (ziRaw hi lo) : ℚ) * lsbZ g r / 1000 + Z_OFFSET_MT

/-- The offset correction with the subtraction read as wrapping 16-bit
two's-complement arithmetic: the corrected count is the signed reading of
`(raw word - offset) mod 2^16`. -/
def ziCor_wrapspec (r : Res) (word : Nat) : ℤ :=
  match r with
  | .res18 => wrap16 ((word : ℤ) - 0x8000)
  | .res19 => wrap16 ((word : ℤ) - 0x4000)
  | _ => wrap16 (word : ℤ)

/-- The decode pipeline of claim C1 amended: the offset subtraction wraps in
16-bit two's complement (applied to the raw 16-bit word), the rest as
stated. -/
def decodeZ_wrapspec (g : Gain) (r : Res) (hi lo : Nat) : ℚ :=
  if (ziCor_wrapspec r (byteWord hi lo) : ℚ) * lsbZ g r / 1000 + Z_OFFSET_MT < 0 then 0
  else (ziCor_wrapspec r (byteWord hi lo) : ℚ) * lsbZ g r / 1000 + Z_OFFSET_MT

/-- The decode pipeline generalized over the hallconf table half `hc`; the
source decode is this function at the constant index 0 (HALLCONF = 0xC). -/
def decodeZ_hc (hc : Nat) (g : Gain) (r : Res) (hi lo : Nat) : ℚ :=
  if (ziCor r (ziRaw hi lo) : ℚ) * lsb hc g r 1 / 1000 + Z_OFFSET_MT < 0 then 0
  else (ziCor r (ziRaw hi lo) : ℚ) * lsb hc g r 1 / 1000 + Z_OFFSET_MT

/-! ### Helper lemmas -/

/-- `wrap16` is the identity on values already in the `int16_t` range. -/
theorem wrap16_eq_self {z : ℤ} (h1 : -32768 ≤ z) (h2 : z < 32768) :
    wrap16 z = z := by
  unfold wrap16
  omega

/-- Wrapping is stable under a previous wrap of the argument. -/
theorem wrap16_sub_wrap16 (z c : ℤ) : wrap16 (wrap16 z - c) = wrap16 (z - c) := by
  unfold wrap16
  omega

/-- The reassembled 16-bit word is below 2^16. -/
theorem byteWord_lt (hi lo : Nat) : byteWord hi lo < 65536 := by
  unfold byteWord
  omega

/-- The signed reassembly lies in the `int16_t` range. -/
theorem ziRaw_bounds (hi lo : Nat) :
    -32768 ≤ ziRaw hi lo ∧ ziRaw hi lo < 32768 := by
  unfold ziRaw wrap16
  omega

/-- The 6-bit status code is the byte divided by 4 (equivalently, shifted
right two bits), already below 64. -/
theorem statusCode_eq (s : Nat) : statusCode s = s % 256 / 4 % 64 := by
  unfold statusCode
  rw [Nat.shiftRight_eq_div_pow]
  omega

/-- The corrected count and the wrap-on-the-word correction agree. -/
theorem ziCor_eq_wrapspec (r : Res) (hi lo : Nat) :
    ziCor r (ziRaw hi lo) = ziCor_wrapspec r (byteWord hi lo) := by
  cases r
  · rfl
  · rfl
  · exact wrap16_sub_wrap16 ((byteWord hi lo : ℤ)) 0x8000
  · exact wrap16_sub_wrap16 ((byteWord hi lo : ℤ)) 0x4000

/-- The GAIN-1X, 16-bit Z-axis table entry is non-zero (and so is every
16-bit Z entry, over all gains). -/
theorem lsbZ_res16_ne_zero (g : Gain) : lsbZ g Res.res16 ≠ 0 := by
  cases g <;> norm_num [lsbZ, lsb, mlx90393_lsb_lookup, Gain.toIdx, Res.toIdx]

/-! ### Claim theorems -/

/-- C1 (counterexample): the decode as the claim literally states it — with
the resolution offset subtracted by exact integer arithmetic — disagrees with
the code on the raw byte pair `0x80, 0x00` at 18-bit resolution, gain 1X:
the code wraps `zi -= 0x8000` in 16-bit two's complement and returns 20 mT,
the literal reading would clamp to 0 mT. -/
theorem decode_exact_subtraction_counterexample :
    decodeZ Gain.gain1x Res.res18 128 0 = 20 ∧
    decodeZ_litspec Gain.gain1x Res.res18 128 0 = 0 ∧
    decodeZ_litspec Gain.gain1x Res.res18 128 0 ≠ decodeZ Gain.gain1x Res.res18 128 0 := by
  norm_num [decodeZ, decodeZ_litspec, z_mT, z_uT, ziCor, ziCor_litspec, ziRaw, byteWord,
    wrap16, lsbZ, lsb, mlx90393_lsb_lookup, Gain.toIdx, Res.toIdx, Z_OFFSET_MT]

/-- C1 (amended): for every 2-byte raw Z-axis sample, every gain and every
resolution, the success-path decode of `mlx_read_measurement` computes: the
big-endian signed 16-bit reassembly `zi`; the 18/19-bit offset correction
performed in wrapping 16-bit two's-complement arithmetic — equivalently, the
corrected count is the signed 16-bit reading of `(raw word - offset) mod 2^16`
— with no correction at 16/17-bit; multiplication by the Z-axis scale factor;
division by 1000; addition of the positive Z-offset; clamp at 0. -/
theorem decode_pipeline_wrapping (g : Gain) (r : Res) (hi lo : Nat) :
    decodeZ g r hi lo = decodeZ_wrapspec g r hi lo := by
  unfold decodeZ z_mT z_uT decodeZ_wrapspec
  rw [ziCor_eq_wrapspec]

/-- C2: for every command exchange, the status code is the returned status
byte shifted right by 2 bits (its low 2 bits discarded, a 6-bit code), and
success is decided per command: EXIT_MODE iff 0x00, RESET iff 0x01,
START_MEASUREMENT iff 0x00 or 0x08; READ_MEASUREMENT accepts and decodes its
data bytes iff the code is 0x00 and discards them (reporting failure)
otherwise; every transport failure is reported as failure. -/
theorem status_code_per_command (s : Nat) (g : Gain) (r : Res) (data : List Nat) :
    (mlx_exit_mode (some s) = true ↔ s % 256 / 4 % 64 = 0x00)
  ∧ (mlx_reset (some s) = true ↔ s % 256 / 4 % 64 = 0x01)
  ∧ (mlx_start_measurement (some s) = true ↔
      (s % 256 / 4 % 64 = 0x00 ∨ s % 256 / 4 % 64 = 0x08))
  ∧ mlx_read_measurement g r (some data) =
      (if data.getD 0 0 % 256 / 4 % 64 = 0x00 then
        some (decodeZ g r (data.getD 5 0) (data.getD 6 0)) else none)
  ∧ mlx_exit_mode none = false ∧ mlx_reset none = false
  ∧ mlx_start_measurement none = false ∧ mlx_read_measurement g r none = none := by
  refine ⟨?_, ?_, ?_, ?_, rfl, rfl, rfl, rfl⟩ <;>
    simp [mlx_exit_mode, mlx_reset, mlx_start_measurement, mlx_read_measurement,
      statusCode_eq]

/-- C3 (counterexample): decoding the raw byte pair `0x00, 0x64` (zi = 100)
at 16-bit resolution, gain 1X, hallconf 0 does NOT yield
`100 * 0.150 / 1000 + Z_OFFSET`: 0.150 is the XY-axis factor, while the code
reads the Z-axis column of the table. -/
theorem decode_0x64_xy_factor_counterexample :
    decodeZ Gain.gain1x Res.res16 0 100 ≠ 100 * (0.150 : ℚ) / 1000 + Z_OFFSET_MT := by
  norm_num [decodeZ, z_mT, z_uT, ziCor, ziRaw, byteWord, wrap16, lsbZ, lsb,
    mlx90393_lsb_lookup, Gain.toIdx, Res.toIdx, Z_OFFSET_MT]

/-- C3 (amended): decoding the raw byte pair `0x00, 0x64` (zi = 100) at
16-bit resolution, gain 1X, hallconf 0 yields exactly
`100 * 0.242 / 1000 + Z_OFFSET` (0.242 µT/count being the Z-axis scale
factor of that table cell); the value is positive, so the clamp at 0 leaves
it unchanged. -/
theorem decode_0x64_z_factor :
    decodeZ Gain.gain1x Res.res16 0 100 = 100 * (0.242 : ℚ) / 1000 + Z_OFFSET_MT := by
  norm_num [decodeZ, z_mT, z_uT, ziCor, ziRaw, byteWord, wrap16, lsbZ, lsb,
    mlx90393_lsb_lookup, Gain.toIdx, Res.toIdx, Z_OFFSET_MT]

/-- C4: if the EXIT_MODE or the RESET exchange fails during `mlx_init`, then
`mlx_init` returns failure, the driver stays unmarked, and every subsequent
polling cycle fails fast with zero `mlx_transceive` invocations. -/
theorem init_failure_fail_fast (env : Env)
    (h : mlx_exit_mode env.exitResp = false ∨ mlx_reset env.resetResp = false) :
    mlx_init env = false ∧ (afterInit env).initDone = false ∧
    ∀ (g : Gain) (r : Res) (env2 : Env),
      pollCycle g r (afterInit env) env2 = (afterInit env, none, 0) := by
  have hinit : mlx_init env = false := by
    rcases h with h | h
    · unfold mlx_init
      rw [h]
      rfl
    · unfold mlx_init
      rw [h]
      cases mlx_exit_mode env.exitResp <;> rfl
  refine ⟨hinit, hinit, ?_⟩
  intro g r env2
  unfold pollCycle
  have hd : (afterInit env).initDone = false := hinit
  rw [hd]
  rfl

/-- Witness for C4: with a transport failure on the EXIT_MODE exchange,
`mlx_init` fails and the next polling cycle performs no bus transaction. -/
theorem init_failure_fail_fast_witness :
    mlx_exit_mode (Env.mk none none none none).exitResp = false
  ∧ (mlx_init (Env.mk none none none none) = false
      ∧ (afterInit (Env.mk none none none none)).initDone = false
      ∧ pollCycle Gain.gain1x Res.res16 (afterInit (Env.mk none none none none))
          (Env.mk none none none none)
          = (afterInit (Env.mk none none none none), none, 0)) := by
  have h := init_failure_fail_fast (Env.mk none none none none) (Or.inl rfl)
  exact ⟨rfl, h.1, h.2.1, h.2.2 Gain.gain1x Res.res16 (Env.mk none none none none)⟩

/-- C5: any polling cycle that produces no reading (transport failure on
start or read, or a non-zero READ_MEASUREMENT status code) leaves the
FilterState — and the whole driver state — exactly as it was. -/
theorem read_failure_preserves_filter (g : Gain) (r : Res) (st : DriverState)
    (env : Env) (hinit : st.initDone = true)
    (hfail : (pollCycle g r st env).2.1 = none) :
    (pollCycle g r st env).1 = st := by
  rcases hrd : mlx_read_data g r env with ⟨o, n⟩
  cases o with
  | none =>
      unfold pollCycle
      rw [hinit, hrd]
      rfl
  | some z =>
      exfalso
      unfold pollCycle at hfail
      rw [hinit, hrd] at hfail
      simp at hfail

/-- Witness for C5: READ_MEASUREMENT answers status byte 0x10 (code 0x04),
so the cycle fails and the FilterState keeps its prior value. -/
theorem read_failure_preserves_filter_witness :
    (DriverState.mk true (FilterState.mk 5 false)).initDone = true
  ∧ (pollCycle Gain.gain1x Res.res16 (DriverState.mk true (FilterState.mk 5 false))
      (Env.mk none none (some 0) (some [16, 0, 0, 0, 0, 0, 0]))).2.1 = none
  ∧ (pollCycle Gain.gain1x Res.res16 (DriverState.mk true (FilterState.mk 5 false))
      (Env.mk none none (some 0) (some [16, 0, 0, 0, 0, 0, 0]))).1
      = DriverState.mk true (FilterState.mk 5 false) :=
  ⟨rfl, rfl,
    read_failure_preserves_filter Gain.gain1x Res.res16
      (DriverState.mk true (FilterState.mk 5 false))
      (Env.mk none none (some 0) (some [16, 0, 0, 0, 0, 0, 0])) rfl rfl⟩

/-- C6: on the first accepted reading the smoothed value is set to the raw
input and the raw input is returned; on every later accepted reading the new
smoothed value is `raw * (1 - c) + previous * c` and is returned; with
coefficient `FILTER_VAL = 0.4` and successive inputs 10 then 20 the second
call returns 16. -/
theorem smoother_update_spec :
    ∀ (s raw c : ℚ),
      smootherUpdate ⟨s, true⟩ raw c = (⟨raw, false⟩, raw)
    ∧ smootherUpdate ⟨s, false⟩ raw c
        = (⟨raw * (1 - c) + s * c, false⟩, raw * (1 - c) + s * c)
    ∧ (smootherUpdate (smootherUpdate ⟨s, true⟩ 10 FILTER_VAL).1 20 FILTER_VAL).2 = 16 := by
  intro s raw c
  refine ⟨rfl, rfl, ?_⟩
  norm_num [smootherUpdate, smooth, FILTER_VAL]

/-- C7: every decoded PhysicalField is non-negative (negative values after
the additive Z-offset are clamped to 0), and `calculate_force` is
non-negative for every input (a negative linear result is clamped to 0). -/
theorem outputs_nonneg :
    ∀ (g : Gain) (r : Res) (hi lo : Nat) (z : ℚ),
      0 ≤ decodeZ g r hi lo ∧ 0 ≤ calculate_force z := by
  intro g r hi lo z
  constructor
  · unfold decodeZ
    split
    · exact le_rfl
    · exact le_of_not_lt (by assumption)
  · simp only [calculate_force]
    split
    · exact le_rfl
    · exact le_of_not_lt (by assumption)

/-- C8 (counterexample): at raw bytes `0x00, 0x64`, gain 1X, the 18-bit
decode does not differ from the 16-bit decode by the 0x8000-count offset
scaled by the 18-bit factor, nor by the 16-bit factor: the two resolutions
use different scale factors and the final mT value is offset and clamped. -/
theorem res18_vs_res16_difference_counterexample :
    decodeZ Gain.gain1x Res.res18 0 100
      ≠ decodeZ Gain.gain1x Res.res16 0 100
          - 0x8000 * lsbZ Gain.gain1x Res.res18 / 1000
  ∧ decodeZ Gain.gain1x Res.res18 0 100
      ≠ decodeZ Gain.gain1x Res.res16 0 100
          - 0x8000 * lsbZ Gain.gain1x Res.res16 / 1000 := by
  constructor <;>
    norm_num [decodeZ, z_mT, z_uT, ziCor, ziRaw, byteWord, wrap16, lsbZ, lsb,
      mlx90393_lsb_lookup, Gain.toIdx, Res.toIdx, Z_OFFSET_MT]

/-- C8 (amended): at the µT stage (before the /1000 conversion, Z-offset and
clamp), for the same raw bytes and gain, whenever the signed reassembly is
non-negative (so the wrapping subtraction is exact), the 18-bit value equals
the 16-bit value rescaled to the 18-bit factor minus exactly the
0x8000-count offset scaled by the 18-bit factor. -/
theorem res18_offset_at_uT_stage (g : Gain) (hi lo : Nat)
    (h : 0 ≤ ziRaw hi lo) :
    z_uT g Res.res18 hi lo
      = z_uT g Res.res16 hi lo * (lsbZ g Res.res18 / lsbZ g Res.res16)
        - 0x8000 * lsbZ g Res.res18 := by
  have hb := ziRaw_bounds hi lo
  have hcor : ziCor Res.res18 (ziRaw hi lo) = ziRaw hi lo - 0x8000 := by
    show wrap16 (ziRaw hi lo - 0x8000) = ziRaw hi lo - 0x8000
    exact wrap16_eq_self (by omega) (by omega)
  have h16 : ziCor Res.res16 (ziRaw hi lo) = ziRaw hi lo := rfl
  have hs := lsbZ_res16_ne_zero g
  unfold z_uT
  rw [hcor, h16]
  push_cast
  field_simp
  ring

/-- Witness for C8: raw bytes `0x00, 0x64` (zi = 100 ≥ 0) at gain 1X satisfy
the amended µT-stage relation. -/
theorem res18_offset_at_uT_stage_witness :
    (0 : ℤ) ≤ ziRaw 0 100
  ∧ z_uT Gain.gain1x Res.res18 0 100
      = z_uT Gain.gain1x Res.res16 0 100
          * (lsbZ Gain.gain1x Res.res18 / lsbZ Gain.gain1x Res.res16)
        - 0x8000 * lsbZ Gain.gain1x Res.res18 :=
  ⟨by norm_num [ziRaw, byteWord, wrap16],
    res18_offset_at_uT_stage Gain.gain1x 0 100 (by norm_num [ziRaw, byteWord, wrap16])⟩

/-- C9: every field value `x` is a fixed point of the smoother for any
coefficient `c` in `[0, 1)`: `smooth x c x = x`, and once the (seeded)
filter state equals the constant input, a further update returns `x` and
leaves the state at `x`. -/
theorem smooth_fixed_point (x c : ℚ) (h0 : 0 ≤ c) (h1 : c < 1) :
    smooth x c x = x ∧ smootherUpdate ⟨x, false⟩ x c = (⟨x, false⟩, x) := by
  have hs : smooth x c x = x := by unfold smooth; ring
  have hu : smootherUpdate ⟨x, false⟩ x c = (⟨smooth x c x, false⟩, smooth x c x) := rfl
  refine ⟨hs, ?_⟩
  rw [hu, hs]

/-- Witness for C9: the fixed-point property at `x = 5`, `c = 0.4`. -/
theorem smooth_fixed_point_witness :
    ((0 : ℚ) ≤ 0.4 ∧ (0.4 : ℚ) < 1)
  ∧ (smooth 5 0.4 5 = 5 ∧ smootherUpdate ⟨5, false⟩ 5 0.4 = (⟨5, false⟩, 5)) :=
  ⟨⟨by norm_num, by norm_num⟩, smooth_fixed_point 5 0.4 (by norm_num) (by norm_num)⟩

/-- C10: the decode reads its scale factor from the HALLCONF = 0xC half of
the lookup table (first index the constant 0): for every gain, resolution
and raw bytes, the decoded PhysicalField equals the hallconf-generalized
decode evaluated at table half 0, and hallconf is not a runtime input of
the decode. -/
theorem decode_uses_hallconf0 :
    ∀ (g : Gain) (r : Res) (hi lo : Nat),
      lsbZ g r = lsb 0 g r 1 ∧ decodeZ g r hi lo = decodeZ_hc 0 g r hi lo :=
  fun _ _ _ _ => ⟨rfl, rfl⟩

end ForceSensor
